import Mathlib

/-!
Shallow embedding of the captcha-gemini Cloudflare Worker.

The repository carries two variants of the worker script:
  * the main variant (source file part_001), whose submit handler requires
    both the image field and the mimeType field of the JSON body, and
  * the legacy variant (captcha-gemini.js), whose submit handler requires
    only the image field and hard-codes the media type image/png.
Both variants are embedded below; definitions for the legacy variant carry
the suffix Legacy.

JavaScript truthiness of optional string values (null / undefined / empty
string are falsy) is modelled by the predicate truthy on Option String.
The key-value store (Cloudflare KV) is modelled by an association list from
task identifiers to task states together with an explicit operation trace,
so that claims about which store operations a handler performs, and in which
order, can be stated directly.
-/

namespace CaptchaGemini

/-- JavaScript truthiness of a possibly absent string: null, undefined and
the empty string are falsy, every other string is truthy. -/
def truthy : Option String → Bool
  | none => false
  | some s => !s.isEmpty

/-- The stored task state, i.e. the JSON object written to the KV store.
A completed state carries an optional solution field because the source
builds the object as status completed with solution taken from the provider
result, which JSON.stringify drops when it is undefined. -/
inductive TaskState where
  | pending : TaskState
  | completed (solution : Option String) : TaskState
  | error (message : String) : TaskState
deriving DecidableEq, Repr

/-- An HTTP response body.  Plain text bodies are carried verbatim; the
submit success body is the JSON object with the taskId field; a result
success body is the raw stored JSON value; the root page body is the
rendered HTML page, whose contents are presentation only. -/
inductive Body where
  | text (s : String) : Body
  | taskId (id : String) : Body
  | stored (v : TaskState) : Body
  | html : Body
deriving DecidableEq, Repr

/-- An HTTP response: a status code and a body. -/
structure Response where
  status : Nat
  body : Body
deriving DecidableEq, Repr

/-- The KV store contents: an association list from keys to task states. -/
def KVStore : Type := List (String × TaskState)

instance : DecidableEq KVStore := by
  unfold KVStore
  infer_instance

/-- A single operation against the KV store.  A put records the key, the
written value and the expirationTtl option passed at the call site. -/
inductive KVOp where
  | put (key : String) (value : TaskState) (ttl : Nat) : KVOp
  | get (key : String) : KVOp
deriving DecidableEq, Repr

/-- KV get: the value most recently written for the key, if any. -/
def kvGet (store : KVStore) (key : String) : Option TaskState :=
  match store with
  | [] => none
  | (k, v) :: rest => if k = key then some v else kvGet rest key

/-- KV put: upsert that fully overwrites any existing value for the key. -/
def kvPut (store : KVStore) (key : String) (value : TaskState) : KVStore :=
  (key, value) :: (store.filter (fun p => p.1 ≠ key))

/-- Effect of one store operation on the store contents. -/
def applyOp (store : KVStore) : KVOp → KVStore
  | .put k v _ => kvPut store k v
  | .get _ => store

/-- Effect of a sequence of store operations on the store contents. -/
def applyOps (store : KVStore) (ops : List KVOp) : KVStore :=
  ops.foldl applyOp store

/-- An event in the life of a submit request: either a store operation or
the handing of the HTTP response back to the caller. -/
inductive Event where
  | op (o : KVOp) : Event
  | respond (r : Response) : Event
deriving DecidableEq, Repr

/-- The store operations contained in an event trace, in order. -/
def eventOps : List Event → List KVOp
  | [] => []
  | .op o :: rest => o :: eventOps rest
  | .respond _ :: rest => eventOps rest

/-- Effect of an event trace on the store contents. -/
def applyEvents (store : KVStore) (events : List Event) : KVStore :=
  applyOps store (eventOps events)

/-- The parsed JSON body of a submit request.  Each field is an optional
string; a missing field is none and is falsy, as is an empty string. -/
structure SubmitBody where
  image : Option String
  mimeType : Option String
deriving DecidableEq, Repr

/-- An incoming HTTP request, reduced to the parts the worker inspects:
method, URL path, the Authorization header, the parsed JSON body (none when
request.json() throws on invalid JSON), and the taskId and apiKey query
parameters. -/
structure Request where
  method : String
  path : String
  authHeader : Option String
  body : Option SubmitBody
  taskIdParam : Option String
  apiKeyParam : Option String
deriving DecidableEq, Repr

/-- The worker environment: the four environment variables, each possibly
absent or empty, and whether the RESULTS_KV binding is present. -/
structure Env where
  GEMINI_API_KEY : Option String
  GEMINI_MODEL : Option String
  AUTH_TOKEN : Option String
  API_KEY : Option String
  RESULTS_KV : Bool
deriving DecidableEq, Repr

/-- The configuration object handed to the handlers once every required
setting has been found present (the kv handle is carried separately as the
store itself). -/
structure Config where
  geminiApiKey : String
  geminiModel : String
  authToken : String
  apiKey : String
deriving DecidableEq, Repr

/-- Extraction of the configuration strings from the environment. -/
def configOf (env : Env) : Config :=
  { geminiApiKey := env.GEMINI_API_KEY.getD ""
    geminiModel := env.GEMINI_MODEL.getD ""
    authToken := env.AUTH_TOKEN.getD ""
    apiKey := env.API_KEY.getD "" }

/-- The configuration presence check of the fetch entry point: the for-in
loop walks the config object keys in insertion order and reports the first
key whose value is falsy. -/
def missingSetting (env : Env) : Option String :=
  if !truthy env.GEMINI_API_KEY then some "geminiApiKey"
  else if !truthy env.GEMINI_MODEL then some "geminiModel"
  else if !truthy env.AUTH_TOKEN then some "authToken"
  else if !truthy env.API_KEY then some "apiKey"
  else if !env.RESULTS_KV then some "kv"
  else none

/-- Whether every required setting is present and truthy. -/
def envComplete (env : Env) : Bool :=
  truthy env.GEMINI_API_KEY && truthy env.GEMINI_MODEL &&
    truthy env.AUTH_TOKEN && truthy env.API_KEY && env.RESULTS_KV

/-- The HTTP 500 response produced when a required setting is missing. -/
def configErrorResponse (key : String) : Response :=
  { status := 500
    body := .text ("Required setting \"" ++ key ++
      "\" is not configured in Worker environment.") }

/-- The fixed instruction text of the main variant (CONFIG.PROMPT_TEXT). -/
def PROMPT_TEXT : String :=
  "Analyze the captcha image. If it contains alphanumeric characters, extract the exact string. If it shows a mathematical problem (using +, -, ×, ÷ symbols), calculate the result and return only the final number. The output should always be the raw answer, without any explanation, formatting, or quotes."

/-- The fixed instruction text of the legacy variant (CONFIG.PROMPT_TEXT in
captcha-gemini.js). -/
def PROMPT_TEXT_LEGACY : String :=
  "Analyze this captcha image. If it contains a mathematical expression, solve it and respond with only the numerical result. If it contains a string of characters, respond with only that string. Do not include any explanation."

/-- The request payload sent to the provider, reduced to its data content:
the instruction text of the first part and the media type and base64 data
of the inline_data part.  The generationConfig (temperature 0.1 and
maxOutputTokens 20) is constant and carried by maxOutputTokens only, since
the temperature is a floating point literal irrelevant to every claim. -/
structure GeminiPayload where
  promptText : String
  mime_type : String
  data : String
  maxOutputTokens : Nat
deriving DecidableEq, Repr

/-- The object returned by callGemini on a non-throwing path: a JavaScript
object literal carrying either an error field or a solution field, the
other being undefined. -/
structure CallResult where
  error : Option String := none
  solution : Option String := none
deriving DecidableEq, Repr

/-- The observable outcome of the single fetch to the provider, the oracle
input to callGemini:
  * transportReject: the fetch promise rejects (network or transport error);
  * httpError: a response arrives with a non-success status, with the given
    response text;
  * okUnparsable: a success status arrives but the body is not parseable
    JSON, so res.json() throws;
  * okParsed: a success status with a parseable JSON body; the argument is
    the string at candidates[0].content.parts[0].text when that path exists
    and holds a string, and none when any step of the extraction throws. -/
inductive GeminiReply where
  | transportReject : GeminiReply
  | httpError (errText : String) : GeminiReply
  | okUnparsable : GeminiReply
  | okParsed (answer : Option String) : GeminiReply
deriving DecidableEq, Repr

/-- The JavaScript String.prototype.trim applied to the extracted answer
text: whitespace stripped from both ends.  Defined by structural recursion
over the character list so that concrete instances evaluate. -/
def jsTrim (s : String) : String :=
  String.mk
    (((s.data.dropWhile Char.isWhitespace).reverse.dropWhile Char.isWhitespace).reverse)

/-- The callGemini function of both variants (their bodies are identical up
to local variable names).  An Except.error result models an exception that
escapes callGemini uncaught: the function has no try block around the fetch
itself or around res.json(), only around the extraction of the answer. -/
def callGemini (apiKey model : String) (payload : GeminiPayload)
    (reply : GeminiReply) : Except Unit CallResult :=
  match reply with
  | .transportReject => .error ()
  | .httpError errText => .ok { error := some ("Gemini API error: " ++ errText) }
  | .okUnparsable => .error ()
  | .okParsed none => .ok { error := some "Failed to parse Gemini response" }
  | .okParsed (some t) => .ok { solution := some (jsTrim t) }

/-- The payload built by the main solveAndStore from the prompt, the
declared media type and the image data. -/
def geminiPayload (mimeType imageBase64 : String) : GeminiPayload :=
  { promptText := PROMPT_TEXT
    mime_type := mimeType
    data := imageBase64
    maxOutputTokens := 20 }

/-- The terminal state built by solveAndStore from the provider result:
the source tests truthiness of result.error, so a present but empty error
string would fall through to the completed branch with the (then undefined)
solution field. -/
def finalState (result : CallResult) : TaskState :=
  if truthy result.error then .error (result.error.getD "")
  else .completed result.solution

/-- The background step of the main variant.  It performs no store
operation before the provider call; if callGemini throws, the exception
escapes solveAndStore (which has no try block) and no put is performed,
modelled by Except.error.  Otherwise it performs exactly one put of the
terminal state with a 300 second TTL. -/
def solveAndStore (taskId imageBase64 mimeType : String) (cfg : Config)
    (reply : GeminiReply) : Except Unit (List KVOp) :=
  match callGemini cfg.geminiApiKey cfg.geminiModel
      (geminiPayload mimeType imageBase64) reply with
  | .error e => .error e
  | .ok result => .ok [KVOp.put taskId (finalState result) 300]

/-- The background work scheduled by the main submit handler via
ctx.waitUntil: the task identifier and the image and media type taken from
the request body. -/
structure BackgroundJob where
  taskId : String
  image : String
  mimeType : String
deriving DecidableEq, Repr

/-- The main submit handler (part_001).  Returns the HTTP response, the
store operations it performed itself, and the background job it scheduled,
if any.  newTaskId stands for the value returned by crypto.randomUUID(). -/
def handleSubmit (req : Request) (cfg : Config) (newTaskId : String) :
    Response × List KVOp × Option BackgroundJob :=
  if req.method ≠ "POST" then
    ({ status := 405, body := .text "Expected POST" }, [], none)
  else if req.authHeader ≠ some ("Bearer " ++ cfg.authToken) then
    ({ status := 401, body := .text "Unauthorized: Invalid AUTH_TOKEN" }, [], none)
  else
    match req.body with
    | none => ({ status := 400, body := .text "Invalid JSON body" }, [], none)
    | some b =>
      if !truthy b.image || !truthy b.mimeType then
        ({ status := 400,
           body := .text "Missing \"image\" or \"mimeType\" field in JSON body." },
         [], none)
      else
        ({ status := 200, body := .taskId newTaskId },
         [KVOp.put newTaskId .pending 300],
         some { taskId := newTaskId
                image := b.image.getD ""
                mimeType := b.mimeType.getD "" })

/-- The main result handler (part_001).  Returns the HTTP response and the
store operations it performed against the given store contents. -/
def handleResult (req : Request) (cfg : Config) (store : KVStore) :
    Response × List KVOp :=
  if req.method ≠ "GET" then
    ({ status := 405, body := .text "Expected GET" }, [])
  else if req.apiKeyParam ≠ some cfg.apiKey then
    ({ status := 401, body := .text "Unauthorized: Invalid API_KEY" }, [])
  else if !truthy req.taskIdParam then
    ({ status := 400, body := .text "Missing \"taskId\" parameter" }, [])
  else
    match kvGet store (req.taskIdParam.getD "") with
    | none => ({ status := 404, body := .text "Task not found or expired" },
               [KVOp.get (req.taskIdParam.getD "")])
    | some v => ({ status := 200, body := .stored v },
                 [KVOp.get (req.taskIdParam.getD "")])

/-- The full ordered event trace of one submit request in the main variant:
the store operations awaited by the handler, then the handing back of the
response, then the operations of the background job.  The pending put is
awaited before ctx.waitUntil is called and before the response is returned;
the background unit suspends at the provider fetch, so its terminal put is
ordered after the response event.  When callGemini throws, the background
job performs no operation at all. -/
def submitLifecycle (req : Request) (cfg : Config) (newTaskId : String)
    (reply : GeminiReply) : List Event :=
  match handleSubmit req cfg newTaskId with
  | (resp, ops, job) =>
    ops.map .op ++ [.respond resp] ++
      (match job with
       | none => []
       | some j =>
         match solveAndStore j.taskId j.image j.mimeType cfg reply with
         | .error _ => []
         | .ok bops => bops.map .op)

/-- The main fetch entry point (part_001): configuration presence check in
key order, then routing on the path.  The root path serves the HTML page,
/submit and /result dispatch to their handlers, everything else is 404.
Returns the response, the store operations performed, and the scheduled
background job, if any. -/
def workerFetch (req : Request) (env : Env) (store : KVStore)
    (newTaskId : String) : Response × List KVOp × Option BackgroundJob :=
  match missingSetting env with
  | some key => (configErrorResponse key, [], none)
  | none =>
    let cfg := configOf env
    if req.path = "/" then
      ({ status := 200, body := .html }, [], none)
    else if req.path = "/submit" then
      handleSubmit req cfg newTaskId
    else if req.path = "/result" then
      match handleResult req cfg store with
      | (resp, ops) => (resp, ops, none)
    else
      ({ status := 404, body := .text "Not Found. Use /, /submit or /result." },
       [], none)

/-- The background work scheduled by the legacy submit handler: no media
type is taken from the body. -/
structure BackgroundJobLegacy where
  taskId : String
  image : String
deriving DecidableEq, Repr

/-- The legacy submit handler (captcha-gemini.js): identical to the main
one except that only the image field of the body is required and the 400
message names only that field. -/
def handleSubmitLegacy (req : Request) (cfg : Config) (newTaskId : String) :
    Response × List KVOp × Option BackgroundJobLegacy :=
  if req.method ≠ "POST" then
    ({ status := 405, body := .text "Expected POST" }, [], none)
  else if req.authHeader ≠ some ("Bearer " ++ cfg.authToken) then
    ({ status := 401, body := .text "Unauthorized: Invalid AUTH_TOKEN" }, [], none)
  else
    match req.body with
    | none => ({ status := 400, body := .text "Invalid JSON body" }, [], none)
    | some b =>
      if !truthy b.image then
        ({ status := 400, body := .text "Missing \"image\" field" }, [], none)
      else
        ({ status := 200, body := .taskId newTaskId },
         [KVOp.put newTaskId .pending 300],
         some { taskId := newTaskId, image := b.image.getD "" })

/-- The legacy result handler (captcha-gemini.js): identical to the main
one except for the wording of the 400 message. -/
def handleResultLegacy (req : Request) (cfg : Config) (store : KVStore) :
    Response × List KVOp :=
  if req.method ≠ "GET" then
    ({ status := 405, body := .text "Expected GET" }, [])
  else if req.apiKeyParam ≠ some cfg.apiKey then
    ({ status := 401, body := .text "Unauthorized: Invalid API_KEY" }, [])
  else if !truthy req.taskIdParam then
    ({ status := 400, body := .text "Missing \"taskId\" query parameter" }, [])
  else
    match kvGet store (req.taskIdParam.getD "") with
    | none => ({ status := 404, body := .text "Task not found or expired" },
               [KVOp.get (req.taskIdParam.getD "")])
    | some v => ({ status := 200, body := .stored v },
                 [KVOp.get (req.taskIdParam.getD "")])

/-- The payload built by the legacy solveAndStore: the media type is the
hard-coded string image/png. -/
def geminiPayloadLegacy (imageBase64 : String) : GeminiPayload :=
  { promptText := PROMPT_TEXT_LEGACY
    mime_type := "image/png"
    data := imageBase64
    maxOutputTokens := 20 }

/-- The legacy background step: like the main one but with the hard-coded
media type and without a mimeType parameter. -/
def solveAndStoreLegacy (taskId imageBase64 : String) (cfg : Config)
    (reply : GeminiReply) : Except Unit (List KVOp) :=
  match callGemini cfg.geminiApiKey cfg.geminiModel
      (geminiPayloadLegacy imageBase64) reply with
  | .error e => .error e
  | .ok result => .ok [KVOp.put taskId (finalState result) 300]

/-- The full ordered event trace of one submit request in the legacy
variant, mirroring submitLifecycle. -/
def submitLifecycleLegacy (req : Request) (cfg : Config) (newTaskId : String)
    (reply : GeminiReply) : List Event :=
  match handleSubmitLegacy req cfg newTaskId with
  | (resp, ops, job) =>
    ops.map .op ++ [.respond resp] ++
      (match job with
       | none => []
       | some j =>
         match solveAndStoreLegacy j.taskId j.image cfg reply with
         | .error _ => []
         | .ok bops => bops.map .op)

/-- The legacy fetch entry point (captcha-gemini.js): same configuration
check, no root page route, its own 404 message. -/
def workerFetchLegacy (req : Request) (env : Env) (store : KVStore)
    (newTaskId : String) : Response × List KVOp × Option BackgroundJobLegacy :=
  match missingSetting env with
  | some key => (configErrorResponse key, [], none)
  | none =>
    let cfg := configOf env
    if req.path = "/submit" then
      handleSubmitLegacy req cfg newTaskId
    else if req.path = "/result" then
      match handleResultLegacy req cfg store with
      | (resp, ops) => (resp, ops, none)
    else
      ({ status := 404,
         body := .text "Not Found. Use /submit or /result endpoints." },
       [], none)

deriving instance DecidableEq for Except

/-! Concrete fixtures used by witnesses and counterexamples. -/

/-- A concrete configuration. -/
def cfg0 : Config :=
  { geminiApiKey := "gk", geminiModel := "gm", authToken := "tok", apiKey := "key" }

/-- A concrete valid submit request for cfg0: POST with the correct bearer
token and a body carrying both the image and the mimeType field. -/
def submitReq0 : Request :=
  { method := "POST", path := "/submit", authHeader := some "Bearer tok"
    body := some { image := some "IMG", mimeType := some "image/png" }
    taskIdParam := none, apiKeyParam := none }

/-- A concrete authenticated POST whose body has an image but no mimeType
field. -/
def submitReqNoMime : Request :=
  { method := "POST", path := "/submit", authHeader := some "Bearer tok"
    body := some { image := some "IMG", mimeType := none }
    taskIdParam := none, apiKeyParam := none }

/-- A concrete authenticated POST whose body has neither an image nor a
mimeType field. -/
def submitReqNoImage : Request :=
  { method := "POST", path := "/submit", authHeader := some "Bearer tok"
    body := some { image := none, mimeType := none }
    taskIdParam := none, apiKeyParam := none }

/-- A concrete GET result request carrying a wrong apiKey and no taskId. -/
def resultReqBadKey : Request :=
  { method := "GET", path := "/result", authHeader := none, body := none
    taskIdParam := none, apiKeyParam := some "wrong" }

/-- A concrete PUT request, matching neither handler's expected method. -/
def putReq : Request :=
  { method := "PUT", path := "/submit", authHeader := none, body := none
    taskIdParam := none, apiKeyParam := none }

/-- A concrete environment whose API_KEY variable is unset. -/
def envNoApiKey : Env :=
  { GEMINI_API_KEY := some "gk", GEMINI_MODEL := some "gm"
    AUTH_TOKEN := some "tok", API_KEY := none, RESULTS_KV := true }

/-- A concrete environment whose AUTH_TOKEN variable is set to the empty
string, which JavaScript treats as falsy. -/
def envEmptyToken : Env :=
  { GEMINI_API_KEY := some "gk", GEMINI_MODEL := some "gm"
    AUTH_TOKEN := some "", API_KEY := some "key", RESULTS_KV := true }

/-- A concrete GET request for the root page. -/
def rootReq : Request :=
  { method := "GET", path := "/", authHeader := none, body := none
    taskIdParam := none, apiKeyParam := none }

/-! Shared reduction lemmas. -/

/-- Reading back a key immediately after a put yields the written value. -/
theorem kvGet_kvPut_self (store : KVStore) (key : String) (v : TaskState) :
    kvGet (kvPut store key v) key = some v := by
  simp [kvGet, kvPut]

/-- The main submit handler on a valid request: 200 with the fresh task
identifier, one pending put with TTL 300, and a scheduled background job. -/
theorem handleSubmit_valid (req : Request) (cfg : Config) (id : String)
    (b : SubmitBody)
    (hm : req.method = "POST")
    (ha : req.authHeader = some ("Bearer " ++ cfg.authToken))
    (hb : req.body = some b)
    (hi : truthy b.image = true) (hmt : truthy b.mimeType = true) :
    handleSubmit req cfg id =
      ({ status := 200, body := .taskId id },
       [KVOp.put id .pending 300],
       some { taskId := id, image := b.image.getD ""
              mimeType := b.mimeType.getD "" }) := by
  simp [handleSubmit, hm, ha, hb, hi, hmt]

/-- The submit lifecycle trace on a valid request when callGemini returns
cleanly: pending put, response, terminal put. -/
theorem submitLifecycle_ok (req : Request) (cfg : Config) (id : String)
    (reply : GeminiReply) (b : SubmitBody) (r : CallResult)
    (hm : req.method = "POST")
    (ha : req.authHeader = some ("Bearer " ++ cfg.authToken))
    (hb : req.body = some b)
    (hi : truthy b.image = true) (hmt : truthy b.mimeType = true)
    (hc : callGemini cfg.geminiApiKey cfg.geminiModel
        (geminiPayload (b.mimeType.getD "") (b.image.getD "")) reply = .ok r) :
    submitLifecycle req cfg id reply =
      [Event.op (KVOp.put id .pending 300),
       Event.respond { status := 200, body := .taskId id },
       Event.op (KVOp.put id (finalState r) 300)] := by
  simp [submitLifecycle, handleSubmit_valid req cfg id b hm ha hb hi hmt,
    solveAndStore, hc]

/-- The submit lifecycle trace on a valid request when callGemini throws:
pending put and response only, no terminal put. -/
theorem submitLifecycle_throw (req : Request) (cfg : Config) (id : String)
    (reply : GeminiReply) (b : SubmitBody) (e : Unit)
    (hm : req.method = "POST")
    (ha : req.authHeader = some ("Bearer " ++ cfg.authToken))
    (hb : req.body = some b)
    (hi : truthy b.image = true) (hmt : truthy b.mimeType = true)
    (hc : callGemini cfg.geminiApiKey cfg.geminiModel
        (geminiPayload (b.mimeType.getD "") (b.image.getD "")) reply = .error e) :
    submitLifecycle req cfg id reply =
      [Event.op (KVOp.put id .pending 300),
       Event.respond { status := 200, body := .taskId id }] := by
  simp [submitLifecycle, handleSubmit_valid req cfg id b hm ha hb hi hmt,
    solveAndStore, hc]

/-! Claim theorems. -/

/-- C1 counterexample: for a concrete valid submission whose provider fetch
rejects at the transport level, the background step performs no store write
at all — the event trace ends with the HTTP response, there is no terminal
put, and the stored state for the task identifier is still pending after
the background step has finished.  This refutes the claim that an
unexpected internal error in the background step still writes the error
terminal state. -/
theorem C1_counterexample :
    submitLifecycle submitReq0 cfg0 "tid0" .transportReject =
      [Event.op (KVOp.put "tid0" .pending 300),
       Event.respond { status := 200, body := .taskId "tid0" }] ∧
    kvGet (applyEvents []
        (submitLifecycle submitReq0 cfg0 "tid0" .transportReject)) "tid0"
      = some TaskState.pending := by
  exact ⟨by decide, by decide⟩

/-- C1 (amended): for every valid submission, failures that callGemini
handles itself (a non-success provider status, or a parsed body without the
answer text) are turned into a terminal put by the background step; but
when callGemini throws (transport rejection, or a success status whose body
is not parseable JSON) the exception escapes solveAndStore, no terminal put
is performed, and the stored state remains pending after the background
step has finished. -/
theorem C1_background_error_boundary (req : Request) (cfg : Config)
    (id : String) (reply : GeminiReply) (b : SubmitBody)
    (hm : req.method = "POST")
    (ha : req.authHeader = some ("Bearer " ++ cfg.authToken))
    (hb : req.body = some b)
    (hi : truthy b.image = true) (hmt : truthy b.mimeType = true) :
    (∀ r, callGemini cfg.geminiApiKey cfg.geminiModel
        (geminiPayload (b.mimeType.getD "") (b.image.getD "")) reply = .ok r →
      submitLifecycle req cfg id reply =
        [Event.op (KVOp.put id .pending 300),
         Event.respond { status := 200, body := .taskId id },
         Event.op (KVOp.put id (finalState r) 300)]) ∧
    (∀ e, callGemini cfg.geminiApiKey cfg.geminiModel
        (geminiPayload (b.mimeType.getD "") (b.image.getD "")) reply = .error e →
      submitLifecycle req cfg id reply =
        [Event.op (KVOp.put id .pending 300),
         Event.respond { status := 200, body := .taskId id }] ∧
      ∀ store, kvGet (applyEvents store (submitLifecycle req cfg id reply)) id
        = some TaskState.pending) := by
  constructor
  · intro r hc
    exact submitLifecycle_ok req cfg id reply b r hm ha hb hi hmt hc
  · intro e hc
    have htr := submitLifecycle_throw req cfg id reply b e hm ha hb hi hmt hc
    refine ⟨htr, fun store => ?_⟩
    rw [htr]
    simp [applyEvents, eventOps, applyOps, applyOp, kvGet_kvPut_self]

/-- C1 witness: the amended theorem applied to a concrete valid submission
whose provider responds with a non-success status. -/
theorem C1_background_error_boundary_witness :
    submitLifecycle submitReq0 cfg0 "tid1" (.httpError "boom") =
      [Event.op (KVOp.put "tid1" .pending 300),
       Event.respond { status := 200, body := .taskId "tid1" },
       Event.op (KVOp.put "tid1" (.error "Gemini API error: boom") 300)] := by
  have h := (C1_background_error_boundary submitReq0 cfg0 "tid1"
      (.httpError "boom") { image := some "IMG", mimeType := some "image/png" }
      rfl rfl rfl (by decide) (by decide)).1
      { error := some "Gemini API error: boom" } (by decide)
  exact h

/-- C2 counterexample: in the legacy submit handler a concrete
authenticated POST whose body carries an image but no mimeType field is not
rejected with 400 — it answers 200, performs the pending store write and
schedules the background job, i.e. it creates a task.  This refutes the
claim for the legacy variant of the handler. -/
theorem C2_counterexample :
    handleSubmitLegacy submitReqNoMime cfg0 "tid2" =
      ({ status := 200, body := .taskId "tid2" },
       [KVOp.put "tid2" .pending 300],
       some { taskId := "tid2", image := "IMG" }) := by
  decide

/-- C2 (amended): in the main submit handler every authenticated POST whose
body lacks the image field or the mimeType field gets 400 with no store
write and no task; in the legacy handler only a missing image field gets
400 with no store write — a missing mimeType alone still creates a task
there. -/
theorem C2_missing_fields (req : Request) (cfg : Config) (id : String)
    (b : SubmitBody)
    (hm : req.method = "POST")
    (ha : req.authHeader = some ("Bearer " ++ cfg.authToken))
    (hb : req.body = some b) :
    (truthy b.image = false ∨ truthy b.mimeType = false →
      handleSubmit req cfg id =
        ({ status := 400,
           body := .text "Missing \"image\" or \"mimeType\" field in JSON body." },
         [], none)) ∧
    (truthy b.image = false →
      handleSubmitLegacy req cfg id =
        ({ status := 400, body := .text "Missing \"image\" field" }, [], none)) := by
  constructor
  · intro h
    rcases h with h | h <;> simp [handleSubmit, hm, ha, hb, h]
  · intro h
    simp [handleSubmitLegacy, hm, ha, hb, h]

/-- C2 witness: the amended theorem applied to a concrete authenticated
POST whose body has neither field. -/
theorem C2_missing_fields_witness :
    handleSubmit submitReqNoImage cfg0 "tid2m" =
      ({ status := 400,
         body := .text "Missing \"image\" or \"mimeType\" field in JSON body." },
       [], none) ∧
    handleSubmitLegacy submitReqNoImage cfg0 "tid2m" =
      ({ status := 400, body := .text "Missing \"image\" field" }, [], none) := by
  have h := C2_missing_fields submitReqNoImage cfg0 "tid2m"
    { image := none, mimeType := none } rfl rfl rfl
  exact ⟨h.1 (Or.inl rfl), h.2 rfl⟩

/-- C3 counterexample: when the provider answers with a success status and
a parseable body whose answer text is the empty string, callGemini returns
a solution value with an empty solution — not an error value.  This
refutes the claim that an empty answer text yields an error. -/
theorem C3_counterexample :
    callGemini "gk" "gm" (geminiPayload "image/png" "IMG")
        (.okParsed (some "")) =
      .ok { error := none, solution := some "" } := by
  decide

/-- C3 (amended): the inference client returns an error value for a
non-success provider status and for a parsed body in which extracting the
answer text fails; a parsed body whose answer text is present — even empty
or all whitespace — yields a solution value holding the trimmed text; and
a transport rejection or a success response whose body is not parseable
JSON escapes as an uncaught exception. -/
theorem C3_inference_client_outcomes (k m : String) (p : GeminiPayload)
    (errText t : String) :
    callGemini k m p (.httpError errText) =
      .ok { error := some ("Gemini API error: " ++ errText), solution := none } ∧
    callGemini k m p (.okParsed none) =
      .ok { error := some "Failed to parse Gemini response", solution := none } ∧
    callGemini k m p (.okParsed (some t)) =
      .ok { error := none, solution := some (jsTrim t) } ∧
    callGemini k m p .transportReject = .error () ∧
    callGemini k m p .okUnparsable = .error () := by
  exact ⟨rfl, rfl, rfl, rfl, rfl⟩

/-- The terminal state built from a provider result is never pending: it is
either an error state or a completed state. -/
theorem finalState_ne_pending (r : CallResult) :
    finalState r ≠ TaskState.pending := by
  unfold finalState
  split <;> simp

/-- C4: for every valid submission, the event trace starts with the pending
put (TTL 300) for the returned identifier, followed by the 200 response
carrying that identifier; everything after the response is a put of a
non-pending state for the same identifier with TTL 300; and reading the
identifier against the store as left by the events up to and including the
response yields pending, never a missing value. -/
theorem C4_pending_before_response (req : Request) (cfg : Config)
    (id : String) (reply : GeminiReply) (b : SubmitBody)
    (hm : req.method = "POST")
    (ha : req.authHeader = some ("Bearer " ++ cfg.authToken))
    (hb : req.body = some b)
    (hi : truthy b.image = true) (hmt : truthy b.mimeType = true) :
    ∃ rest,
      submitLifecycle req cfg id reply =
        Event.op (KVOp.put id .pending 300) ::
          Event.respond { status := 200, body := .taskId id } :: rest ∧
      (∀ ev ∈ rest, ∃ ts, ev = Event.op (KVOp.put id ts 300) ∧
        ts ≠ TaskState.pending) ∧
      (∀ store : KVStore,
        kvGet (applyEvents store
          [Event.op (KVOp.put id .pending 300),
           Event.respond { status := 200, body := .taskId id }]) id
          = some TaskState.pending) := by
  have hread : ∀ store : KVStore,
      kvGet (applyEvents store
        [Event.op (KVOp.put id .pending 300),
         Event.respond { status := 200, body := .taskId id }]) id
        = some TaskState.pending := by
    intro store
    simp [applyEvents, eventOps, applyOps, applyOp, kvGet_kvPut_self]
  cases hc : callGemini cfg.geminiApiKey cfg.geminiModel
      (geminiPayload (b.mimeType.getD "") (b.image.getD "")) reply with
  | error e =>
    refine ⟨[], submitLifecycle_throw req cfg id reply b e hm ha hb hi hmt hc,
      ?_, hread⟩
    intro ev hev
    cases hev
  | ok r =>
    refine ⟨[Event.op (KVOp.put id (finalState r) 300)],
      submitLifecycle_ok req cfg id reply b r hm ha hb hi hmt hc, ?_, hread⟩
    intro ev hev
    simp at hev
    exact ⟨finalState r, hev, finalState_ne_pending r⟩

/-- C4 witness: the theorem applied to a concrete valid submission with a
successful provider reply. -/
theorem C4_pending_before_response_witness :
    ∃ rest,
      submitLifecycle submitReq0 cfg0 "tid4" (.okParsed (some "42")) =
        Event.op (KVOp.put "tid4" .pending 300) ::
          Event.respond { status := 200, body := .taskId "tid4" } :: rest ∧
      (∀ ev ∈ rest, ∃ ts, ev = Event.op (KVOp.put "tid4" ts 300) ∧
        ts ≠ TaskState.pending) ∧
      (∀ store : KVStore,
        kvGet (applyEvents store
          [Event.op (KVOp.put "tid4" .pending 300),
           Event.respond { status := 200, body := .taskId "tid4" }]) "tid4"
          = some TaskState.pending) := by
  exact C4_pending_before_response submitReq0 cfg0 "tid4" (.okParsed (some "42"))
    { image := some "IMG", mimeType := some "image/png" }
    rfl rfl rfl (by decide) (by decide)

/-- C5: in both variants of the result handler, a GET request whose apiKey
query parameter does not match the configured query credential is answered
with 401 and no store operation is performed, whatever the taskId parameter
and whatever the store contents — the credential check precedes both the
taskId presence check and the store read. -/
theorem C5_credential_before_lookup (req : Request) (cfg : Config)
    (store : KVStore)
    (hm : req.method = "GET")
    (hk : req.apiKeyParam ≠ some cfg.apiKey) :
    handleResult req cfg store =
      ({ status := 401, body := .text "Unauthorized: Invalid API_KEY" }, []) ∧
    handleResultLegacy req cfg store =
      ({ status := 401, body := .text "Unauthorized: Invalid API_KEY" }, []) := by
  constructor
  · simp [handleResult, hm, hk]
  · simp [handleResultLegacy, hm, hk]

/-- C5 witness: the theorem applied to a concrete GET with a wrong apiKey
and no taskId, against a non-empty store. -/
theorem C5_credential_before_lookup_witness :
    handleResult resultReqBadKey cfg0 [("t1", TaskState.pending)] =
      ({ status := 401, body := .text "Unauthorized: Invalid API_KEY" }, []) ∧
    handleResultLegacy resultReqBadKey cfg0 [("t1", TaskState.pending)] =
      ({ status := 401, body := .text "Unauthorized: Invalid API_KEY" }, []) := by
  exact C5_credential_before_lookup resultReqBadKey cfg0 [("t1", TaskState.pending)]
    rfl (by decide)

/-- The operation list of the main result handler is empty or one get. -/
theorem handleResult_ops (req : Request) (cfg : Config) (store : KVStore) :
    (handleResult req cfg store).2 = [] ∨
      ∃ k, (handleResult req cfg store).2 = [KVOp.get k] := by
  unfold handleResult
  split
  · exact Or.inl rfl
  split
  · exact Or.inl rfl
  split
  · exact Or.inl rfl
  split
  · exact Or.inr ⟨_, rfl⟩
  · exact Or.inr ⟨_, rfl⟩

/-- The operation list of the legacy result handler is empty or one get. -/
theorem handleResultLegacy_ops (req : Request) (cfg : Config) (store : KVStore) :
    (handleResultLegacy req cfg store).2 = [] ∨
      ∃ k, (handleResultLegacy req cfg store).2 = [KVOp.get k] := by
  unfold handleResultLegacy
  split
  · exact Or.inl rfl
  split
  · exact Or.inl rfl
  split
  · exact Or.inl rfl
  split
  · exact Or.inr ⟨_, rfl⟩
  · exact Or.inr ⟨_, rfl⟩

/-- C6: in both variants the result handler performs only get operations
against the store, so its operations leave the store contents unchanged,
and polling again against the resulting store returns the same response and
operations — repeated polls are idempotent and cause no state drift. -/
theorem C6_result_read_pure (req : Request) (cfg : Config) (store : KVStore) :
    (∀ o ∈ (handleResult req cfg store).2, ∃ k, o = KVOp.get k) ∧
    applyOps store (handleResult req cfg store).2 = store ∧
    handleResult req cfg (applyOps store (handleResult req cfg store).2) =
      handleResult req cfg store ∧
    (∀ o ∈ (handleResultLegacy req cfg store).2, ∃ k, o = KVOp.get k) ∧
    applyOps store (handleResultLegacy req cfg store).2 = store := by
  have happ : applyOps store (handleResult req cfg store).2 = store := by
    rcases handleResult_ops req cfg store with h | ⟨k, h⟩ <;> rw [h] <;> rfl
  have happL : applyOps store (handleResultLegacy req cfg store).2 = store := by
    rcases handleResultLegacy_ops req cfg store with h | ⟨k, h⟩ <;> rw [h] <;> rfl
  refine ⟨?_, happ, by rw [happ], ?_, happL⟩
  · intro o ho
    rcases handleResult_ops req cfg store with h | ⟨k, h⟩
    · rw [h] at ho
      cases ho
    · rw [h] at ho
      simp at ho
      exact ⟨k, ho⟩
  · intro o ho
    rcases handleResultLegacy_ops req cfg store with h | ⟨k, h⟩
    · rw [h] at ho
      cases ho
    · rw [h] at ho
      simp at ho
      exact ⟨k, ho⟩

/-- C7: for every valid submission, every store put in the whole lifecycle
trace — the pending write at creation and the terminal write of the
background step — carries the fixed 300 second TTL; and when the provider
call returns cleanly, the value stored for the identifier after the whole
trace is exactly the terminal state, whatever was stored before: the
terminal write fully replaces the pending entry. -/
theorem C7_ttl_and_overwrite (req : Request) (cfg : Config) (id : String)
    (reply : GeminiReply) (b : SubmitBody)
    (hm : req.method = "POST")
    (ha : req.authHeader = some ("Bearer " ++ cfg.authToken))
    (hb : req.body = some b)
    (hi : truthy b.image = true) (hmt : truthy b.mimeType = true) :
    (∀ k v t, Event.op (KVOp.put k v t) ∈ submitLifecycle req cfg id reply →
      t = 300) ∧
    (∀ r, callGemini cfg.geminiApiKey cfg.geminiModel
        (geminiPayload (b.mimeType.getD "") (b.image.getD "")) reply = .ok r →
      ∀ store : KVStore,
        kvGet (applyEvents store (submitLifecycle req cfg id reply)) id
          = some (finalState r)) := by
  constructor
  · intro k v t hmem
    cases hc : callGemini cfg.geminiApiKey cfg.geminiModel
        (geminiPayload (b.mimeType.getD "") (b.image.getD "")) reply with
    | error e =>
      rw [submitLifecycle_throw req cfg id reply b e hm ha hb hi hmt hc] at hmem
      simp at hmem
      exact hmem.2.2
    | ok r =>
      rw [submitLifecycle_ok req cfg id reply b r hm ha hb hi hmt hc] at hmem
      simp at hmem
      rcases hmem with h | h
      · exact h.2.2
      · exact h.2.2
  · intro r hc store
    rw [submitLifecycle_ok req cfg id reply b r hm ha hb hi hmt hc]
    simp [applyEvents, eventOps, applyOps, applyOp, kvGet_kvPut_self]

/-- C7 witness: the theorem applied to a concrete valid submission with a
successful provider reply, instantiated at the terminal put of the trace
and at a store already holding the pending entry. -/
theorem C7_ttl_and_overwrite_witness :
    (∀ k v t, Event.op (KVOp.put k v t) ∈
        submitLifecycle submitReq0 cfg0 "tid7" (.okParsed (some "42")) →
      t = 300) ∧
    (∀ r, callGemini cfg0.geminiApiKey cfg0.geminiModel
        (geminiPayload "image/png" "IMG") (.okParsed (some "42")) = .ok r →
      ∀ store : KVStore,
        kvGet (applyEvents store
            (submitLifecycle submitReq0 cfg0 "tid7" (.okParsed (some "42")))) "tid7"
          = some (finalState r)) := by
  exact C7_ttl_and_overwrite submitReq0 cfg0 "tid7" (.okParsed (some "42"))
    { image := some "IMG", mimeType := some "image/png" }
    rfl rfl rfl (by decide) (by decide)

/-- When the configuration check reports a missing key, both fetch entry
points answer with the 500 configuration error, perform no store operation
and schedule no background job. -/
theorem workerFetch_config_error (req : Request) (env : Env) (store : KVStore)
    (id key : String) (h : missingSetting env = some key) :
    workerFetch req env store id = (configErrorResponse key, [], none) ∧
    workerFetchLegacy req env store id = (configErrorResponse key, [], none) := by
  constructor
  · simp [workerFetch, h]
  · simp [workerFetchLegacy, h]

/-- If not every required setting is present, the configuration check
reports some key, and that key designates a setting that is indeed falsy. -/
theorem envComplete_false_missing (env : Env) (h : envComplete env = false) :
    ∃ key, missingSetting env = some key ∧
      ((key = "geminiApiKey" ∧ truthy env.GEMINI_API_KEY = false) ∨
       (key = "geminiModel" ∧ truthy env.GEMINI_MODEL = false) ∨
       (key = "authToken" ∧ truthy env.AUTH_TOKEN = false) ∨
       (key = "apiKey" ∧ truthy env.API_KEY = false) ∨
       (key = "kv" ∧ env.RESULTS_KV = false)) := by
  cases h1 : truthy env.GEMINI_API_KEY
  · exact ⟨"geminiApiKey", by simp [missingSetting, h1], Or.inl ⟨rfl, rfl⟩⟩
  · cases h2 : truthy env.GEMINI_MODEL
    · exact ⟨"geminiModel", by simp [missingSetting, h1, h2],
        Or.inr (Or.inl ⟨rfl, rfl⟩)⟩
    · cases h3 : truthy env.AUTH_TOKEN
      · exact ⟨"authToken", by simp [missingSetting, h1, h2, h3],
          Or.inr (Or.inr (Or.inl ⟨rfl, rfl⟩))⟩
      · cases h4 : truthy env.API_KEY
        · exact ⟨"apiKey", by simp [missingSetting, h1, h2, h3, h4],
            Or.inr (Or.inr (Or.inr (Or.inl ⟨rfl, rfl⟩)))⟩
        · have h5 : env.RESULTS_KV = false := by
            simpa [envComplete, h1, h2, h3, h4] using h
          exact ⟨"kv", by simp [missingSetting, h1, h2, h3, h4, h5],
            Or.inr (Or.inr (Or.inr (Or.inr ⟨rfl, h5⟩)))⟩

/-- C8: whenever not all five required settings are present, every request
— in both variants of the worker — is answered with the HTTP 500
configuration error whose body names a setting that is indeed missing, no
store operation is performed and no background job is scheduled: no route
handler executes. -/
theorem C8_missing_setting_guard (req : Request) (env : Env) (store : KVStore)
    (id : String) (h : envComplete env = false) :
    ∃ key, missingSetting env = some key ∧
      ((key = "geminiApiKey" ∧ truthy env.GEMINI_API_KEY = false) ∨
       (key = "geminiModel" ∧ truthy env.GEMINI_MODEL = false) ∨
       (key = "authToken" ∧ truthy env.AUTH_TOKEN = false) ∨
       (key = "apiKey" ∧ truthy env.API_KEY = false) ∨
       (key = "kv" ∧ env.RESULTS_KV = false)) ∧
      workerFetch req env store id = (configErrorResponse key, [], none) ∧
      workerFetchLegacy req env store id = (configErrorResponse key, [], none) := by
  obtain ⟨key, hk, hwhich⟩ := envComplete_false_missing env h
  obtain ⟨hw, hwl⟩ := workerFetch_config_error req env store id key hk
  exact ⟨key, hk, hwhich, hw, hwl⟩

/-- C8 witness: the theorem applied to a concrete submit request under a
concrete environment whose API_KEY variable is unset. -/
theorem C8_missing_setting_guard_witness :
    ∃ key, missingSetting envNoApiKey = some key ∧
      ((key = "geminiApiKey" ∧ truthy envNoApiKey.GEMINI_API_KEY = false) ∨
       (key = "geminiModel" ∧ truthy envNoApiKey.GEMINI_MODEL = false) ∨
       (key = "authToken" ∧ truthy envNoApiKey.AUTH_TOKEN = false) ∨
       (key = "apiKey" ∧ truthy envNoApiKey.API_KEY = false) ∨
       (key = "kv" ∧ envNoApiKey.RESULTS_KV = false)) ∧
      workerFetch submitReq0 envNoApiKey [] "tid8" =
        (configErrorResponse key, [], none) ∧
      workerFetchLegacy submitReq0 envNoApiKey [] "tid8" =
        (configErrorResponse key, [], none) := by
  exact C8_missing_setting_guard submitReq0 envNoApiKey [] "tid8" (by decide)

/-- C9: in all four handlers (submit and result, main and legacy variants)
the method check strictly precedes the credential check: a submit request
whose method is not POST, or a result request whose method is not GET, is
answered 405 with no store operation and no background job, whatever
credentials it carries — it never reaches the 401 branch. -/
theorem C9_method_before_credential (req : Request) (cfg : Config)
    (store : KVStore) (id : String) :
    (req.method ≠ "POST" →
      handleSubmit req cfg id =
        ({ status := 405, body := .text "Expected POST" }, [], none) ∧
      handleSubmitLegacy req cfg id =
        ({ status := 405, body := .text "Expected POST" }, [], none)) ∧
    (req.method ≠ "GET" →
      handleResult req cfg store =
        ({ status := 405, body := .text "Expected GET" }, []) ∧
      handleResultLegacy req cfg store =
        ({ status := 405, body := .text "Expected GET" }, [])) := by
  constructor
  · intro h
    constructor
    · simp [handleSubmit, h]
    · simp [handleSubmitLegacy, h]
  · intro h
    constructor
    · simp [handleResult, h]
    · simp [handleResultLegacy, h]

/-- C9 witness: the theorem applied to a concrete PUT request with no
credentials at all. -/
theorem C9_method_before_credential_witness :
    (handleSubmit putReq cfg0 "tid9" =
       ({ status := 405, body := .text "Expected POST" }, [], none) ∧
     handleSubmitLegacy putReq cfg0 "tid9" =
       ({ status := 405, body := .text "Expected POST" }, [], none)) ∧
    (handleResult putReq cfg0 [] =
       ({ status := 405, body := .text "Expected GET" }, []) ∧
     handleResultLegacy putReq cfg0 [] =
       ({ status := 405, body := .text "Expected GET" }, [])) := by
  have h := C9_method_before_credential putReq cfg0 [] "tid9"
  exact ⟨h.1 (by decide), h.2 (by decide)⟩

/-- A setting value JavaScript treats as absent: undefined or the empty
string, both falsy. -/
def falsyStr (v : Option String) : Prop := v = none ∨ v = some ""

/-- A falsy setting value fails the truthiness test. -/
theorem falsyStr_truthy {v : Option String} (h : falsyStr v) :
    truthy v = false := by
  rcases h with h | h <;> subst h <;> rfl

/-- C10: the configuration presence check treats the empty string like an
unset variable and runs before routing: whenever one of the five settings
is undefined or empty, every request — whatever its path, including the
root page and unknown paths, in both variants — receives the HTTP 500
configuration error, with no store operation and no background job. -/
theorem C10_falsy_config_before_routing (req : Request) (env : Env)
    (store : KVStore) (id : String)
    (h : falsyStr env.GEMINI_API_KEY ∨ falsyStr env.GEMINI_MODEL ∨
         falsyStr env.AUTH_TOKEN ∨ falsyStr env.API_KEY ∨
         env.RESULTS_KV = false) :
    ∃ key, missingSetting env = some key ∧
      workerFetch req env store id = (configErrorResponse key, [], none) ∧
      workerFetchLegacy req env store id = (configErrorResponse key, [], none) := by
  have hc : envComplete env = false := by
    rcases h with h | h | h | h | h
    · simp [envComplete, falsyStr_truthy h]
    · simp [envComplete, falsyStr_truthy h]
    · simp [envComplete, falsyStr_truthy h]
    · simp [envComplete, falsyStr_truthy h]
    · simp [envComplete, h]
  obtain ⟨key, hk, _⟩ := envComplete_false_missing env hc
  obtain ⟨hw, hwl⟩ := workerFetch_config_error req env store id key hk
  exact ⟨key, hk, hw, hwl⟩

/-- C10 witness: the theorem applied to a concrete root page request under
a concrete environment whose AUTH_TOKEN is the empty string. -/
theorem C10_falsy_config_before_routing_witness :
    ∃ key, missingSetting envEmptyToken = some key ∧
      workerFetch rootReq envEmptyToken [] "tid10" =
        (configErrorResponse key, [], none) ∧
      workerFetchLegacy rootReq envEmptyToken [] "tid10" =
        (configErrorResponse key, [], none) := by
  exact C10_falsy_config_before_routing rootReq envEmptyToken [] "tid10"
    (Or.inr (Or.inr (Or.inl (Or.inr rfl))))

end CaptchaGemini
